import Mathlib

/-!
Verification of the IBC 02-client CLI query layer
(`x/ibc/02-client/client/cli/query.go`) against its specification.

The command bodies (`RunE` closures) are embedded directly from the Go
source.  The underlying query helpers (`utils.QueryClientState`,
`utils.QueryConsensusStateProof`, `utils.QueryCommitmentRoot`, the
commitment store and the proof verifier) live outside the given source
tree; where a claim depends on them they are modelled from the spec, as
marked in their doc comments.  Everything else is abstracted as a
parameter, so theorems quantify over every possible collaborator.
-/

namespace IBCClientCLI

/-- Byte strings are modelled as lists of naturals. -/
abbrev Bytes := List Nat

/-- The bytes of a Go string literal (code points of its characters). -/
def strBytes (s : String) : Bytes := s.data.map Char.toNat

/-- Go `unicode.IsSpace` (the Unicode White_Space property), the character
test used by `strings.TrimSpace`. -/
def goIsSpace (c : Char) : Bool :=
  let n := c.toNat
  (9 ≤ n && n ≤ 13) || n == 32 || n == 0x85 || n == 0xA0 || n == 0x1680 ||
    (0x2000 ≤ n && n ≤ 0x200A) || n == 0x2028 || n == 0x2029 ||
    n == 0x202F || n == 0x205F || n == 0x3000

/-- Go `strings.TrimSpace`: drop leading and trailing white space. -/
def goTrimSpace (s : String) : String :=
  ⟨((s.data.dropWhile goIsSpace).reverse.dropWhile goIsSpace).reverse⟩

/-- Numeric value of a decimal digit list, most significant first. -/
def decValue (cs : List Char) : Nat :=
  cs.foldl (fun a c => a * 10 + (c.toNat - 48)) 0

/-- Go `strconv.ParseUint(s, 10, 64)`: a non-empty all-digit string whose
value fits in 64 bits; no sign prefix is permitted, and values of `2^64`
or more overflow into an error. -/
def goParseUint64 (s : String) : Option Nat :=
  if s.data = [] then none
  else if s.data.all Char.isDigit then
    if decValue s.data < 2 ^ 64 then some (decValue s.data) else none
  else none

/-- The message of `errors.New("client ID can't be blank")` returned by all
three store-backed query commands (the apostrophe is code point 39). -/
def blankClientIDError : String :=
  "client ID can" ++ String.singleton (Char.ofNat 39) ++ "t be blank"

/-- The message of `fmt.Errorf("expected integer height, got: %v", args[1])`
returned by `GetCmdQueryRoot` on a malformed height token. -/
def invalidHeightError (tok : String) : String :=
  "expected integer height, got: " ++ tok

/-- Outcome of running one CLI command: what was printed via
`cliCtx.PrintOutput` (if anything) and the error returned (if any). -/
structure CmdOutcome (α : Type) where
  printed : Option α
  errMsg  : Option String
deriving DecidableEq, Repr

/-- The `RunE` body of `GetCmdQueryClientState`: reject a blank client id,
otherwise call `utils.QueryClientState` (a parameter here) and print its
result on success. -/
def runQueryClientState {α : Type} (query : String → Bool → Except String α)
    (clientID : String) (prove : Bool) : CmdOutcome α :=
  if goTrimSpace clientID = "" then ⟨none, some blankClientIDError⟩
  else
    match query clientID prove with
    | Except.error e => ⟨none, some e⟩
    | Except.ok res => ⟨some res, none⟩

/-- The `RunE` body of `GetCmdQueryConsensusState`: reject a blank client id,
otherwise call `utils.QueryConsensusStateProof` (a parameter here) and print
its result on success. -/
def runQueryConsensusState {α : Type} (query : String → Bool → Except String α)
    (clientID : String) (prove : Bool) : CmdOutcome α :=
  if goTrimSpace clientID = "" then ⟨none, some blankClientIDError⟩
  else
    match query clientID prove with
    | Except.error e => ⟨none, some e⟩
    | Except.ok res => ⟨some res, none⟩

/-- The `RunE` body of `GetCmdQueryRoot`: reject a blank client id, then
parse the height token with `strconv.ParseUint(·, 10, 64)`, then call
`utils.QueryCommitmentRoot` (a parameter here) and print its result. -/
def runQueryRoot {α : Type} (query : String → Nat → Bool → Except String α)
    (clientID heightTok : String) (prove : Bool) : CmdOutcome α :=
  if goTrimSpace clientID = "" then ⟨none, some blankClientIDError⟩
  else
    match goParseUint64 heightTok with
    | none => ⟨none, some (invalidHeightError heightTok)⟩
    | some height =>
      match query clientID height prove with
      | Except.error e => ⟨none, some e⟩
      | Except.ok res => ⟨some res, none⟩

/-- The `RunE` body of `GetCmdQueryHeader`: call `utils.QueryTendermintHeader`
(a parameter here), discard the second component of its result, and print
the header alone. -/
def runQueryHeader {α β : Type} (query : Unit → Except String (α × β)) :
    CmdOutcome α :=
  match query () with
  | Except.error e => ⟨none, some e⟩
  | Except.ok res => ⟨some res.1, none⟩

/-- The `RunE` body of `GetCmdNodeConsensusState`: call
`utils.QueryNodeConsensusState` (a parameter here), discard the second
component of its result, and print the consensus state alone. -/
def runNodeConsensusState {α β : Type} (query : Unit → Except String (α × β)) :
    CmdOutcome α :=
  match query () with
  | Except.error e => ⟨none, some e⟩
  | Except.ok res => ⟨some res.1, none⟩

/-- Commitment namespace type built by `commitment.NewPrefix`, per the
spec (§3) a fixed byte string naming the store namespace proofs are
relative to. -/
structure CommitmentPrefixT where
  keyPrefixBytes : Bytes
deriving DecidableEq, Repr

/-- Constructor `commitment.NewPrefix([]byte(...))`: wrap the given bytes. -/
def NewPrefix (bz : Bytes) : CommitmentPrefixT := ⟨bz⟩

/-- The `RunE` body of `GetCmdQueryPath`: build `NewPrefix([]byte("ibc"))`
and print it.  It reads no store state; the store parameter records that
whatever the node holds is ignored. -/
def runQueryPath {σ : Type} (_store : σ) (_args : List String) :
    CmdOutcome CommitmentPrefixT :=
  ⟨some (NewPrefix (strBytes "ibc")), none⟩

/-- Modelled from the spec: the commitment scheme combining step folded
over proof operations (§4.7, §9); the spec leaves the concrete digest
open, so any fixed combining function represents it. -/
def hashCombine (a b : Nat) : Nat := 3 * a + 5 * b + 7

/-- Modelled from the spec: digest of a byte string. -/
def encBytes (b : Bytes) : Nat := b.foldl hashCombine 11

/-- Modelled from the spec: digest of one (path, value) store entry. -/
def encEntry (e : String × Bytes) : Nat :=
  hashCombine (encBytes (strBytes e.1)) (encBytes e.2)

/-- Modelled from the spec: one step of a CommitmentProof, an ordered
tagged operation (hash-with-prefix or hash-with-sibling, §9). -/
inductive ProofStep : Type
  | hashWithLeft (h : Nat)
  | hashWithSibling (h : Nat)
deriving DecidableEq, Repr

/-- A CommitmentProof is an ordered sequence of proof steps (§3). -/
abbrev CommitmentProof := List ProofStep

/-- Modelled from the spec: apply one proof step to the running digest. -/
def applyStep (acc : Nat) : ProofStep → Nat
  | ProofStep.hashWithLeft h => hashCombine h acc
  | ProofStep.hashWithSibling h => hashCombine acc h

/-- Modelled from the spec: recompute a root digest by folding the proof
over the (path, value) leaf (§4.7). -/
def foldProof (path : String) (value : Bytes) (proof : CommitmentProof) : Nat :=
  proof.foldl applyStep (encEntry (path, value))

/-- Modelled from the spec: `ProofVerifier.verify(root, path, value, proof)`
recomputes a root from the proof and compares it to the trusted root for
equality (§4.7); pure, boolean-valued, never throws. -/
def verify (root : Nat) (path : String) (value : Bytes)
    (proof : CommitmentProof) : Bool :=
  foldProof path value proof == root

/-- A store snapshot: the ordered (path, value) entries committed at one
height. -/
abbrev Snapshot := List (String × Bytes)

/-- Modelled from the spec: the commitment root of a snapshot, a digest
summarizing the whole key-value contents (§3, glossary). -/
def rootOf (snap : Snapshot) : Nat :=
  snap.foldl (fun a e => hashCombine a (encEntry e)) 0

/-- Split a snapshot at the first entry bearing the given path, returning
the entries before it, its value, and the entries after it. -/
def lookupSplit : Snapshot → String → Option (Snapshot × Bytes × Snapshot)
  | [], _ => none
  | e :: rest, p =>
    if e.1 = p then some ([], e.2, rest)
    else
      match lookupSplit rest p with
      | none => none
      | some (before, v, after) => some (e :: before, v, after)

/-- Modelled from the spec: `CommitmentStore.getWithProof` (§4.1) — locate
the entry for a path and produce its value together with a deterministic
inclusion proof: the digest of the preceding entries, then one sibling
step per following entry. -/
def getWithProof (snap : Snapshot) (path : String) :
    Option (Bytes × CommitmentProof) :=
  match lookupSplit snap path with
  | none => none
  | some (before, v, after) =>
    some (v, ProofStep.hashWithLeft (rootOf before) ::
      after.map (fun e => ProofStep.hashWithSibling (encEntry e)))

/-- Modelled from the spec: the versioned store backing the registries —
a snapshot per height plus the latest committed height (§4.1). -/
structure ClientStore where
  snapshots : Nat → Snapshot
  latest : Nat

/-- Modelled from the spec: the trusted commitment root anchored at a
height (§8 round-trip property). -/
def rootAtHeight (st : ClientStore) (h : Nat) : Nat := rootOf (st.snapshots h)

/-- Modelled from the spec: the commitment path `clientState(id)` under the
fixed `ibc` namespace (§4.2, §3). -/
def clientStatePath (id : String) : String :=
  "ibc/clients/" ++ id ++ "/state"

/-- QueryResult record: value, proof height, and optional proof (§3). -/
structure QueryResult where
  value : Bytes
  height : Nat
  proof : Option CommitmentProof
deriving DecidableEq, Repr

/-- Modelled from the spec: `utils.QueryClientState` / ClientStateRegistry
(§4.2) — look up the client-state path at the latest height, fail with
ClientNotFound when absent, and attach the store proof at that height when
`prove` is set. -/
def queryClientState (st : ClientStore) (id : String) (prove : Bool) :
    Except String QueryResult :=
  match getWithProof (st.snapshots st.latest) (clientStatePath id) with
  | none => Except.error "client not found"
  | some (v, p) =>
    Except.ok ⟨v, st.latest, if prove then some p else none⟩

/-- Error for a commitment root missing at the requested exact height
(§4.4). -/
def rootNotFoundError : String := "root not found"

/-- Find the root recorded for exactly the key (id, height). -/
def findRoot (l : List ((String × Nat) × Bytes)) (id : String) (h : Nat) :
    Option Bytes :=
  match l with
  | [] => none
  | (k, r) :: rest => if k = (id, h) then some r else findRoot rest id h

/-- Modelled from the spec: the CommitmentRootRegistry backing
`utils.QueryCommitmentRoot` — a map from (client identifier, height) to a
previously verified root (§3, §4.4), with the store proof generator kept
abstract. -/
structure RootRegistry where
  entries : List ((String × Nat) × Bytes)
  proofFor : String → Nat → CommitmentProof

/-- Modelled from the spec: `utils.QueryCommitmentRoot` (§4.4) — a strict
equality lookup on (id, height); RootNotFound when that exact key was
never recorded; proof attached when `prove` is set. -/
def queryCommitmentRoot (st : RootRegistry) (id : String) (h : Nat)
    (prove : Bool) : Except String QueryResult :=
  match findRoot st.entries id h with
  | none => Except.error rootNotFoundError
  | some r =>
    Except.ok ⟨r, h, if prove then some (st.proofFor id h) else none⟩

/-- The default registered for the `--prove` flag:
`cmd.Flags().Bool(flags.FlagProve, true, ...)` in all three store-backed
commands. -/
def proveFlagDefault : Bool := true

/-- Standard flag resolution (cobra/viper collaborators): the caller-supplied
value when present, the registered default otherwise. -/
def resolveBoolFlag (dflt : Bool) (supplied : Option Bool) : Bool :=
  supplied.getD dflt

/-- Command `GetCmdQueryClientState` invoked end to end: the `--prove` flag
is resolved against its registered default, then the `RunE` body runs. -/
def invokeQueryClientState {α : Type} (query : String → Bool → Except String α)
    (clientID : String) (proveArg : Option Bool) : CmdOutcome α :=
  runQueryClientState query clientID (resolveBoolFlag proveFlagDefault proveArg)

/-- Command `GetCmdQueryConsensusState` invoked end to end, resolving
`--prove` against its registered default. -/
def invokeQueryConsensusState {α : Type}
    (query : String → Bool → Except String α) (clientID : String)
    (proveArg : Option Bool) : CmdOutcome α :=
  runQueryConsensusState query clientID
    (resolveBoolFlag proveFlagDefault proveArg)

/-- Command `GetCmdQueryRoot` invoked end to end, resolving `--prove`
against its registered default. -/
def invokeQueryRoot {α : Type} (query : String → Nat → Bool → Except String α)
    (clientID heightTok : String) (proveArg : Option Bool) : CmdOutcome α :=
  runQueryRoot query clientID heightTok
    (resolveBoolFlag proveFlagDefault proveArg)

/-! Helper lemmas shared by the claim theorems. -/

lemma lookupSplit_append :
    ∀ (snap : Snapshot) (p : String) (b : Snapshot) (v : Bytes) (a : Snapshot),
      lookupSplit snap p = some (b, v, a) → snap = b ++ (p, v) :: a := by
  intro snap p
  induction snap with
  | nil => intro b v a h; simp [lookupSplit] at h
  | cons e rest ih =>
    intro b v a h
    obtain ⟨e1, e2⟩ := e
    by_cases he : e1 = p
    · simp only [lookupSplit, he, if_pos rfl] at h
      obtain ⟨rfl, rfl, rfl⟩ := Option.some.inj h
      simp [he]
    · simp only [lookupSplit] at h
      rw [if_neg he] at h
      cases hr : lookupSplit rest p with
      | none => rw [hr] at h; exact absurd h (by simp)
      | some t =>
        obtain ⟨b2, v2, a2⟩ := t
        rw [hr] at h
        obtain ⟨rfl, rfl, rfl⟩ := Option.some.inj h
        have hrest := ih _ _ _ hr
        simp [hrest]

lemma foldProof_getWithProof (snap : Snapshot) (p : String) (v : Bytes)
    (pf : CommitmentProof) (h : getWithProof snap p = some (v, pf)) :
    foldProof p v pf = rootOf snap := by
  unfold getWithProof at h
  cases hs : lookupSplit snap p with
  | none => rw [hs] at h; exact absurd h (by simp)
  | some t =>
    obtain ⟨b, v2, a⟩ := t
    rw [hs] at h
    obtain ⟨rfl, rfl⟩ := Option.some.inj h
    rw [lookupSplit_append _ _ _ _ _ hs]
    simp [foldProof, rootOf, applyStep, List.foldl_append, List.foldl_map]

lemma findRoot_eq_none (l : List ((String × Nat) × Bytes)) (id : String)
    (h h2 : Nat) (honly : ∀ e ∈ l, e.1.1 = id → e.1.2 = h) (hne : h2 ≠ h) :
    findRoot l id h2 = none := by
  induction l with
  | nil => rfl
  | cons e rest ih =>
    obtain ⟨k, r⟩ := e
    rw [findRoot, if_neg]
    · exact ih fun e he hid => honly e (List.mem_cons_of_mem _ he) hid
    · intro hk
      subst hk
      exact hne (honly ((id, h2), r) (List.mem_cons_self _ _) rfl)

/-- Claim C1: for every client identifier that is blank or whitespace-only,
each of the three store-backed query commands (`GetCmdQueryClientState`,
`GetCmdQueryConsensusState`, `GetCmdQueryRoot`) returns the
"client ID can't be blank" error and prints nothing; the outcome is the
same for every possible underlying query function, so the store lookup is
never invoked. -/
theorem blank_id_rejected_without_lookup {α : Type}
    (q1 q2 : String → Bool → Except String α)
    (q3 : String → Nat → Bool → Except String α)
    (id tok : String) (prove : Bool) (hblank : goTrimSpace id = "") :
    runQueryClientState q1 id prove = ⟨none, some blankClientIDError⟩ ∧
      runQueryConsensusState q2 id prove = ⟨none, some blankClientIDError⟩ ∧
      runQueryRoot q3 id tok prove = ⟨none, some blankClientIDError⟩ := by
  refine ⟨?_, ?_, ?_⟩ <;>
    simp [runQueryClientState, runQueryConsensusState, runQueryRoot, hblank]

theorem blank_id_rejected_without_lookup_witness :
    goTrimSpace "  " = "" ∧
      (runQueryClientState (fun _ _ => (Except.error "store" : Except String Nat))
        "  " true = ⟨none, some blankClientIDError⟩ ∧
      runQueryConsensusState (fun _ _ => (Except.error "store" : Except String Nat))
        "  " true = ⟨none, some blankClientIDError⟩ ∧
      runQueryRoot (fun _ _ _ => (Except.error "store" : Except String Nat))
        "  " "abc" true = ⟨none, some blankClientIDError⟩) :=
  ⟨by decide, blank_id_rejected_without_lookup _ _ _ "  " "abc" true (by decide)⟩

/-- Claim C2: for every height token rejected by
`strconv.ParseUint(tok, 10, 64)` (e.g. "abc", "-1") and every non-blank
identifier, `GetCmdQueryRoot` returns the "expected integer height" error
for every possible underlying query function (so no store lookup happens),
and the error text carries the caller's literal token. -/
theorem malformed_height_rejected {α : Type}
    (q : String → Nat → Bool → Except String α) (id tok : String)
    (prove : Bool) (hid : goTrimSpace id ≠ "")
    (htok : goParseUint64 tok = none) :
    runQueryRoot q id tok prove = ⟨none, some (invalidHeightError tok)⟩ ∧
      invalidHeightError tok = "expected integer height, got: " ++ tok := by
  exact ⟨by simp [runQueryRoot, hid, htok], rfl⟩

theorem malformed_height_rejected_witness :
    goTrimSpace "clientA" ≠ "" ∧ goParseUint64 "abc" = none ∧
      (runQueryRoot (fun _ _ _ => (Except.error "store" : Except String Nat))
        "clientA" "abc" true = ⟨none, some (invalidHeightError "abc")⟩ ∧
      invalidHeightError "abc" = "expected integer height, got: " ++ "abc") :=
  ⟨by decide, by decide,
    malformed_height_rejected _ "clientA" "abc" true (by decide) (by decide)⟩

/-- Claim C8: height tokens are bounded to 64 bits — a non-empty all-digit
token whose value is at least 2^64 is rejected by `GetCmdQueryRoot` with
the "expected integer height" error (for every underlying query function)
even though the token denotes a non-negative integer. -/
theorem height_token_bounded_to_64_bits {α : Type}
    (q : String → Nat → Bool → Except String α) (id tok : String)
    (prove : Bool) (hid : goTrimSpace id ≠ "") (hne : tok.data ≠ [])
    (hdig : tok.data.all Char.isDigit = true)
    (hbig : 2 ^ 64 ≤ decValue tok.data) :
    runQueryRoot q id tok prove = ⟨none, some (invalidHeightError tok)⟩ := by
  have htok : goParseUint64 tok = none := by
    unfold goParseUint64
    rw [if_neg hne, if_pos hdig, if_neg (Nat.not_lt.mpr hbig)]
  simp [runQueryRoot, hid, htok]

theorem height_token_bounded_to_64_bits_witness :
    goTrimSpace "clientA" ≠ "" ∧ "18446744073709551616".data ≠ [] ∧
      "18446744073709551616".data.all Char.isDigit = true ∧
      2 ^ 64 ≤ decValue "18446744073709551616".data ∧
      runQueryRoot (fun _ _ _ => (Except.error "store" : Except String Nat))
        "clientA" "18446744073709551616" true =
        ⟨none, some (invalidHeightError "18446744073709551616")⟩ :=
  ⟨by decide, by decide, by decide, by decide,
    height_token_bounded_to_64_bits _ "clientA" "18446744073709551616" true
      (by decide) (by decide) (by decide) (by decide)⟩

/-- Claim C9: in `GetCmdQueryRoot` identifier validation strictly precedes
height parsing — when the client identifier is blank and the height token
is also malformed, the blank-identifier error is returned, and the outcome
does not depend on the height token at all (so the token is never
parsed). -/
theorem blank_id_checked_before_height_parse {α : Type}
    (q : String → Nat → Bool → Except String α) (id tok : String)
    (prove : Bool) (hblank : goTrimSpace id = "")
    (_htok : goParseUint64 tok = none) :
    runQueryRoot q id tok prove = ⟨none, some blankClientIDError⟩ ∧
      ∀ tok2, runQueryRoot q id tok2 prove = runQueryRoot q id tok prove := by
  exact ⟨by simp [runQueryRoot, hblank], fun tok2 => by simp [runQueryRoot, hblank]⟩

theorem blank_id_checked_before_height_parse_witness :
    goTrimSpace " " = "" ∧ goParseUint64 "-1" = none ∧
      (runQueryRoot (fun _ _ _ => (Except.error "store" : Except String Nat))
        " " "-1" true = ⟨none, some blankClientIDError⟩ ∧
      ∀ tok2, runQueryRoot (fun _ _ _ => (Except.error "store" : Except String Nat))
        " " tok2 true =
        runQueryRoot (fun _ _ _ => (Except.error "store" : Except String Nat))
          " " "-1" true) :=
  ⟨by decide, by decide,
    blank_id_checked_before_height_parse _ " " "-1" true (by decide) (by decide)⟩

/-- Claim C3: round-trip — whenever the client-state query with prove=true
succeeds and carries a proof, `ProofVerifier.verify` applied to the trusted
root at the reported height, the client-state commitment path for the id,
the returned value and the returned proof yields true. -/
theorem client_state_proof_verifies (st : ClientStore) (id : String)
    (r : QueryResult) (pf : CommitmentProof)
    (hq : queryClientState st id true = Except.ok r)
    (hp : r.proof = some pf) :
    verify (rootAtHeight st r.height) (clientStatePath id) r.value pf = true := by
  unfold queryClientState at hq
  cases hg : getWithProof (st.snapshots st.latest) (clientStatePath id) with
  | none => rw [hg] at hq; exact absurd hq (by simp)
  | some t =>
    obtain ⟨v, p⟩ := t
    rw [hg] at hq
    obtain rfl := Except.ok.inj hq
    simp only [if_true] at hp
    simp at hp
    obtain rfl := hp
    have hf := foldProof_getWithProof _ _ _ _ hg
    simp [verify, rootAtHeight, hf]

/-- Sample versioned store holding a client state for "clientA" plus one
unrelated entry, used to instantiate the round-trip theorem. -/
def sampleStore : ClientStore :=
  ⟨fun _ => [(clientStatePath "clientA", [1]), ("ibc/other", [2])], 5⟩

/-- Sample inclusion proof produced by `sampleStore` for "clientA". -/
def sampleProof : CommitmentProof :=
  [ProofStep.hashWithLeft 0, ProofStep.hashWithSibling (encEntry ("ibc/other", [2]))]

theorem client_state_proof_verifies_witness :
    queryClientState sampleStore "clientA" true =
      Except.ok ⟨[1], 5, some sampleProof⟩ ∧
      (⟨[1], 5, some sampleProof⟩ : QueryResult).proof = some sampleProof ∧
      verify (rootAtHeight sampleStore 5) (clientStatePath "clientA") [1]
        sampleProof = true :=
  ⟨rfl, rfl,
    client_state_proof_verifies sampleStore "clientA" ⟨[1], 5, some sampleProof⟩
      sampleProof rfl rfl⟩

/-- Claim C4: `GetCommitmentRoot` is a strict equality lookup on
(client identifier, height): when roots for an id are recorded only at
height h, querying any other height h2 yields RootNotFound — no
nearest-match or interpolation fallback substitutes a neighboring
height's root. -/
theorem commitment_root_strict_equality_lookup (st : RootRegistry)
    (id : String) (h h2 : Nat) (prove : Bool)
    (_hrec : ∃ r, findRoot st.entries id h = some r)
    (honly : ∀ e ∈ st.entries, e.1.1 = id → e.1.2 = h)
    (hne : h2 ≠ h) :
    queryCommitmentRoot st id h2 prove = Except.error rootNotFoundError := by
  unfold queryCommitmentRoot
  rw [findRoot_eq_none st.entries id h h2 honly hne]

/-- Sample root registry recording a root for "clientA" only at height
100. -/
def sampleRoots : RootRegistry := ⟨[(("clientA", 100), [7])], fun _ _ => []⟩

theorem commitment_root_strict_equality_lookup_witness :
    (∃ r, findRoot sampleRoots.entries "clientA" 100 = some r) ∧
      (∀ e ∈ sampleRoots.entries, e.1.1 = "clientA" → e.1.2 = 100) ∧
      (99 : Nat) ≠ 100 ∧ (101 : Nat) ≠ 100 ∧
      queryCommitmentRoot sampleRoots "clientA" 99 true =
        Except.error rootNotFoundError ∧
      queryCommitmentRoot sampleRoots "clientA" 101 true =
        Except.error rootNotFoundError :=
  ⟨⟨[7], rfl⟩,
    fun e he _ => by simp [sampleRoots] at he; subst he; rfl,
    by decide, by decide,
    commitment_root_strict_equality_lookup sampleRoots "clientA" 100 99 true
      ⟨[7], rfl⟩ (fun e he _ => by simp [sampleRoots] at he; subst he; rfl)
      (by decide),
    commitment_root_strict_equality_lookup sampleRoots "clientA" 100 101 true
      ⟨[7], rfl⟩ (fun e he _ => by simp [sampleRoots] at he; subst he; rfl)
      (by decide)⟩

/-- Claim C5: `GetCmdQueryPath` always produces the fixed constant prefix —
the 3-byte literal "ibc" — independent of store state, arguments, or prior
operations, and returns no error. -/
theorem commitment_prefix_always_ibc {σ : Type} (store : σ)
    (args : List String) :
    runQueryPath store args = ⟨some (NewPrefix (strBytes "ibc")), none⟩ ∧
      strBytes "ibc" = [105, 98, 99] ∧ (strBytes "ibc").length = 3 :=
  ⟨rfl, by decide, by decide⟩

/-- Claim C6: no query operation produces a partial result — each of the
three store-backed commands either prints the fully populated result of a
successful lookup with no error, or returns an error having printed
nothing; on no path are an error and a (partial) result both produced. -/
theorem no_partial_results {α : Type} (q1 q2 : String → Bool → Except String α)
    (q3 : String → Nat → Bool → Except String α) (id tok : String)
    (prove : Bool) :
    ((∃ e, runQueryClientState q1 id prove = ⟨none, some e⟩) ∨
      (∃ r, runQueryClientState q1 id prove = ⟨some r, none⟩ ∧
        q1 id prove = Except.ok r)) ∧
    ((∃ e, runQueryConsensusState q2 id prove = ⟨none, some e⟩) ∨
      (∃ r, runQueryConsensusState q2 id prove = ⟨some r, none⟩ ∧
        q2 id prove = Except.ok r)) ∧
    ((∃ e, runQueryRoot q3 id tok prove = ⟨none, some e⟩) ∨
      (∃ r h, runQueryRoot q3 id tok prove = ⟨some r, none⟩ ∧
        goParseUint64 tok = some h ∧ q3 id h prove = Except.ok r)) := by
  refine ⟨?_, ?_, ?_⟩
  · by_cases hb : goTrimSpace id = ""
    · exact Or.inl ⟨blankClientIDError, by simp [runQueryClientState, hb]⟩
    · cases hq : q1 id prove with
      | error e => exact Or.inl ⟨e, by simp [runQueryClientState, hb, hq]⟩
      | ok r => exact Or.inr ⟨r, by simp [runQueryClientState, hb, hq], rfl⟩
  · by_cases hb : goTrimSpace id = ""
    · exact Or.inl ⟨blankClientIDError, by simp [runQueryConsensusState, hb]⟩
    · cases hq : q2 id prove with
      | error e => exact Or.inl ⟨e, by simp [runQueryConsensusState, hb, hq]⟩
      | ok r => exact Or.inr ⟨r, by simp [runQueryConsensusState, hb, hq], rfl⟩
  · by_cases hb : goTrimSpace id = ""
    · exact Or.inl ⟨blankClientIDError, by simp [runQueryRoot, hb]⟩
    · cases hp : goParseUint64 tok with
      | none =>
        exact Or.inl ⟨invalidHeightError tok, by simp [runQueryRoot, hb, hp]⟩
      | some hh =>
        cases hq : q3 id hh prove with
        | error e => exact Or.inl ⟨e, by simp [runQueryRoot, hb, hp, hq]⟩
        | ok r =>
          exact Or.inr ⟨r, hh, by simp [runQueryRoot, hb, hp, hq], rfl, hq⟩

/-- Claim C7: `GetCmdQueryHeader` and `GetCmdNodeConsensusState` print only
the local value returned by the underlying node query; the accompanying
second component of the query result is discarded and never output, so the
printed result carries the value alone and no proof. -/
theorem header_and_node_state_value_only {α β : Type}
    (q1 q2 : Unit → Except String (α × β)) (v w : α) (x y : β)
    (h1 : q1 () = Except.ok (v, x)) (h2 : q2 () = Except.ok (w, y)) :
    runQueryHeader q1 = ⟨some v, none⟩ ∧
      runNodeConsensusState q2 = ⟨some w, none⟩ := by
  exact ⟨by simp [runQueryHeader, h1], by simp [runNodeConsensusState, h2]⟩

theorem header_and_node_state_value_only_witness :
    (fun _ : Unit => (Except.ok ((7 : Nat), (3 : Nat)) : Except String (Nat × Nat))) ()
        = Except.ok (7, 3) ∧
      (fun _ : Unit => (Except.ok ((8 : Nat), (4 : Nat)) : Except String (Nat × Nat))) ()
        = Except.ok (8, 4) ∧
      (runQueryHeader (fun _ : Unit =>
          (Except.ok ((7 : Nat), (3 : Nat)) : Except String (Nat × Nat))) =
        ⟨some 7, none⟩ ∧
      runNodeConsensusState (fun _ : Unit =>
          (Except.ok ((8 : Nat), (4 : Nat)) : Except String (Nat × Nat))) =
        ⟨some 8, none⟩) :=
  ⟨rfl, rfl, header_and_node_state_value_only _ _ 7 8 3 4 rfl rfl⟩

/-- Claim C10: the `--prove` flag of the three proof-capable commands is
registered with default true, so an invocation omitting the flag resolves
it to true and behaves identically to one passing prove=true explicitly. -/
theorem prove_flag_defaults_to_true {α : Type}
    (q1 q2 : String → Bool → Except String α)
    (q3 : String → Nat → Bool → Except String α) (id tok : String) :
    proveFlagDefault = true ∧
      resolveBoolFlag proveFlagDefault none = true ∧
      invokeQueryClientState q1 id none = invokeQueryClientState q1 id (some true) ∧
      invokeQueryConsensusState q2 id none =
        invokeQueryConsensusState q2 id (some true) ∧
      invokeQueryRoot q3 id tok none = invokeQueryRoot q3 id tok (some true) :=
  ⟨rfl, rfl, rfl, rfl, rfl⟩

end IBCClientCLI
